/-
Verification of the cn5-lite trading core against its specification.

The Python modules `app/services/risk_validator.py`, `app/services/strategy_adapter.py`,
`app/services/backtest_engine.py` and `app/services/ai_generator.py` are shallowly
embedded below.  Python floats are modelled as exact rationals (ℚ), Python dicts as
association lists with insertion-order update semantics, and Python exceptions as
`Except` values.  Every definition is a direct translation of the corresponding
source function; deviations (e.g. dropped logging calls) are noted in comments.
-/
import Mathlib

/-! ### Association-list model of Python dicts -/

/-- `d.get(k)` / `k in d` on a Python dict, modelled over an association list. -/
def lookupS {α : Type} (l : List (String × α)) (k : String) : Option α :=
  (l.find? (fun p => p.1 == k)).map (·.2)

/-- `d[k] = v` on a Python dict: overwrite in place if the key exists,
otherwise append (dicts preserve insertion order). -/
def updateS {α : Type} (l : List (String × α)) (k : String) (v : α) :
    List (String × α) :=
  if (l.find? (fun p => p.1 == k)).isSome then
    l.map (fun p => if p.1 == k then (k, v) else p)
  else l ++ [(k, v)]

/-- Same for dicts keyed by ints (`strategy_capitals`). -/
def lookupI {α : Type} (l : List (Int × α)) (k : Int) : Option α :=
  (l.find? (fun p => p.1 == k)).map (·.2)

/-! ### Substring test (Python `keyword in symbol`) -/

/-- `needle` occurs as a prefix of `hay` (character lists). -/
def charsPre : List Char → List Char → Bool
  | [], _ => true
  | _ :: _, [] => false
  | a :: as, b :: bs => a == b && charsPre as bs

/-- `needle` occurs as a contiguous substring of `hay` (character lists). -/
def charsSub (needle : List Char) : List Char → Bool
  | [] => charsPre needle []
  | c :: rest => charsPre needle (c :: rest) || charsSub needle rest

/-- Python `needle in hay` on strings. -/
def strContains (hay needle : String) : Bool :=
  charsSub needle.data hay.data

/-- Python `hay.startswith(pre)`. -/
def strStarts (hay pre : String) : Bool :=
  charsPre pre.data hay.data

/-- Lexicographic `<` on character lists, as Python compares strings
(by code point). -/
def charsLt : List Char → List Char → Bool
  | [], [] => false
  | [], _ :: _ => true
  | _ :: _, [] => false
  | a :: as, b :: bs => a < b || (a == b && charsLt as bs)

/-- Python `a < b` on strings (date strings in ISO form compare
chronologically). -/
def strLt (a b : String) : Bool := charsLt a.data b.data

/-! ### RiskValidator (`app/services/risk_validator.py`)

State fields translate `RiskValidator.__init__`; `trade_timestamps` are rational
clock readings in seconds and `validate` receives the current clock reading `now`
explicitly (the source reads `datetime.now()`). -/

structure RiskValidator where
  total_capital : ℚ
  max_total_loss_rate : ℚ := 1/10
  max_daily_loss_rate : ℚ := 1/20
  max_strategy_capital_rate : ℚ := 3/10
  max_single_trade_rate : ℚ := 1/5
  max_trades_per_hour : Nat := 20
  current_account_value : ℚ
  daily_start_value : ℚ
  strategy_capitals : List (Int × ℚ) := []
  prev_close_prices : List (String × ℚ) := []
  trade_timestamps : List ℚ := []
  blacklist : List String := []
deriving Repr

/-- `self.st_keywords` from `_init_default_blacklist`. -/
def st_keywords : List String := ["ST", "*ST", "S*ST", "退市"]

/-- `RiskValidator._is_blacklisted`. -/
def RiskValidator.is_blacklisted (v : RiskValidator) (symbol : String) : Bool :=
  v.blacklist.contains symbol || st_keywords.any (fun kw => strContains symbol kw)

/-- `RiskValidator._get_stock_type` (result as a tag). -/
inductive StockType | normal | st | cyb | kcb
deriving DecidableEq, Repr

def RiskValidator.get_stock_type (symbol : String) : StockType :=
  if st_keywords.any (fun kw => strContains symbol kw) then .st
  else if strStarts symbol "SH688" then .kcb
  else if strStarts symbol "SZ300" then .cyb
  else .normal

/-- The `limit_rates` table of `_check_limit_price` / `_is_limit_up`. -/
def limitRate : StockType → ℚ
  | .normal => 1/10
  | .st => 1/20
  | .cyb => 1/5
  | .kcb => 1/5

/-- Outcome of `_check_limit_price`: `allowed` plus which limit fired. -/
inductive LimitOutcome | allowed | limitUp | limitDown
deriving DecidableEq, Repr

/-- `RiskValidator._check_limit_price`.  The two sequential `if` blocks of the
source (limit-up for buys, limit-down for sells) translate to the two guarded
branches; a limit-up price with a sell action falls through to the second
check exactly as in the source. -/
def RiskValidator.check_limit_price (symbol : String) (current_price prev_close : ℚ)
    (action : Option String) : LimitOutcome :=
  if prev_close = 0 then .allowed
  else
    let limit_rate := limitRate (RiskValidator.get_stock_type symbol)
    let price_change_rate := (current_price - prev_close) / prev_close
    if price_change_rate ≥ limit_rate - 1/1000 ∧ action = some "buy" then .limitUp
    else if price_change_rate ≤ -limit_rate + 1/1000 ∧ action = some "sell" then .limitDown
    else .allowed

/-- `RiskValidator._count_recent_trades` (1-hour window; timestamps in seconds). -/
def RiskValidator.count_recent_trades (v : RiskValidator) (now : ℚ) : Nat :=
  (v.trade_timestamps.filter (fun t => now - 3600 < t)).length

/-- A trade signal as consumed by `validate` (`signal.get(...)` defaults). -/
structure RiskSignal where
  action : Option String := none
  symbol : String := ""
  amount : ℚ := 0
  price : ℚ := 0
  strategy_id : Int := 1
deriving Repr

/-- The veto reasons of the seven layers (the source formats each as a distinct
human-readable string; only the identity of the layer matters here). -/
inductive RVReason
  | totalLoss | blacklisted | dailyLoss | strategyCapital
  | singleTrade | frequency | limitUp | limitDown | pass
deriving DecidableEq, Repr

structure RVResult where
  passed : Bool
  reason : RVReason
  risk_score : Nat
deriving DecidableEq, Repr

/-- `RiskValidator.validate`: the 7 sequential layers.  Each early `return`
of the source is a veto branch; the `risk_score += …` accumulations are the
`s…` bindings summed in the final result. -/
def RiskValidator.validate (v : RiskValidator) (now : ℚ) (sig : RiskSignal) : RVResult :=
  let trade_value := sig.amount * sig.price
  -- layer 1: total-capital stop loss
  let total_loss_rate := (v.total_capital - v.current_account_value) / v.total_capital
  if total_loss_rate > v.max_total_loss_rate then ⟨false, .totalLoss, 100⟩
  else
    let s1 : Nat := if total_loss_rate > v.max_total_loss_rate * (1/2) then 20 else 0
    -- layer 2: blacklist
    if v.is_blacklisted sig.symbol then ⟨false, .blacklisted, 100⟩
    else
      -- layer 3: daily loss limit
      let daily_loss_rate := (v.daily_start_value - v.current_account_value) / v.daily_start_value
      if daily_loss_rate > v.max_daily_loss_rate then ⟨false, .dailyLoss, 100⟩
      else
        let s3 : Nat := if daily_loss_rate > v.max_daily_loss_rate * (1/2) then 15 else 0
        -- layer 4: per-strategy capital occupation (buys only)
        let current_capital := (lookupI v.strategy_capitals sig.strategy_id).getD 0
        let capital_rate := (current_capital + trade_value) / v.total_capital
        if sig.action = some "buy" ∧ capital_rate > v.max_strategy_capital_rate then
          ⟨false, .strategyCapital, 100⟩
        else
          let s4 : Nat :=
            if sig.action = some "buy" ∧ capital_rate > v.max_strategy_capital_rate * (7/10)
            then 15 else 0
          -- layer 5: single trade too large
          let trade_rate := trade_value / v.total_capital
          if trade_rate > v.max_single_trade_rate then ⟨false, .singleTrade, 100⟩
          else
            let s5 : Nat :=
              if trade_rate > v.max_single_trade_rate * (7/10) then 20
              else if trade_rate > v.max_single_trade_rate * (1/2) then 10 else 0
            -- layer 6: trading frequency
            let recent_trades := v.count_recent_trades now
            if recent_trades ≥ v.max_trades_per_hour then ⟨false, .frequency, 100⟩
            else
              let s6 : Nat :=
                if (recent_trades : ℚ) > (v.max_trades_per_hour : ℚ) * (7/10) then 15 else 0
              -- layer 7: price limits (only when a previous close is recorded)
              let afterLimit : RVResult := ⟨true, .pass, s1 + s3 + s4 + s5 + s6⟩
              match lookupS v.prev_close_prices sig.symbol with
              | none => afterLimit
              | some prev_close =>
                match RiskValidator.check_limit_price sig.symbol sig.price prev_close sig.action with
                | .allowed => afterLimit
                | .limitUp => ⟨false, .limitUp, 100⟩
                | .limitDown => ⟨false, .limitDown, 100⟩

/-! ### StrategyAdapter (`app/services/strategy_adapter.py`)

A market bar as built by `BacktestEngine.run` (all six fields always present). -/

structure Bar where
  date : String
  openP : ℚ := 0
  high : ℚ := 0
  low : ℚ := 0
  close : ℚ
  volume : ℚ := 0
deriving Repr

/-- A strategy signal that is a dict containing an `action` key
(`signal.get(...)` defaults shown). -/
structure Signal where
  action : String
  symbol : String := ""
  amount : Int := 0
  price : Option ℚ := none
deriving Repr

/-- What a sandboxed strategy's `on_bar` may return: `None`, a value without an
`action` key (returned unchanged by `process_bar`), or an actionable signal. -/
inductive SigOut
  | noSignal
  | info
  | sig (s : Signal)
deriving Repr

/-- A sandboxed strategy: a state transformer over its own instance state `σ`,
which may raise (`Except.error` carries the exception message). -/
def Strategy (σ : Type) : Type := σ → Bar → Except String (SigOut × σ)

/-- The exceptions escaping `StrategyAdapter.process_bar`: `ExecutionError`
re-raised by `StandardStrategy.on_bar`, or the `ValueError` of the lot-size
check in `_validate_and_build_order`. -/
inductive AdapterError
  | executionError (msg : String)
  | valueError (msg : String)
deriving DecidableEq, Repr

/-- `StandardStrategy.on_bar`: any exception from the strategy instance is
caught and re-raised as `ExecutionError` with the original message attached. -/
def StandardStrategy.on_bar {σ : Type} (strat : Strategy σ) (s : σ) (bar : Bar) :
    Except AdapterError (SigOut × σ) :=
  match strat s bar with
  | .error e => .error (.executionError ("策略on_bar执行失败: " ++ e))
  | .ok r => .ok r

/-- One entry of `self.t1_locks` (`{'amount': …, 'lock_date': …}`); `lock_date`
is the order's `date` field, which is `self.current_date` (an `Option`). -/
structure LockInfo where
  amount : Int
  lock_date : Option String
deriving DecidableEq, Repr

/-- Python `a < b` on the (optional) date strings; both sides are always set
at the comparison sites reached from `process_bar` (a `None` would raise a
`TypeError` in the source and is never produced there). -/
def oltDate : Option String → Option String → Bool
  | some a, some b => strLt a b
  | _, _ => false

/-- Adapter state: the sandboxed instance state, the T+1 lock table and the
current date (`StrategyAdapter.__init__` starts with `{}` and `None`). -/
structure AdapterState (σ : Type) where
  stratState : σ
  t1_locks : List (String × LockInfo) := []
  current_date : Option String := none

/-- A fully built order (`_validate_and_build_order`'s dict; extra signal keys
beyond these are copied through in the source but never read again). -/
structure Order where
  action : String
  symbol : String
  amount : Int
  price : ℚ
  strategy_id : Int
  date : Option String
deriving DecidableEq, Repr

/-- `StrategyAdapter._unlock_t1`: drop every lock dated strictly before
`current_date`. -/
def StrategyAdapter.unlock_t1 {σ : Type} (st : AdapterState σ) (current_date : String) :
    AdapterState σ :=
  { st with t1_locks :=
      st.t1_locks.filter (fun p => !(oltDate p.2.lock_date (some current_date))) }

/-- `StrategyAdapter._update_current_date`: set the date; if it changed from a
previously set date, purge expired locks. -/
def StrategyAdapter.update_current_date {σ : Type} (st : AdapterState σ) (date : String) :
    AdapterState σ :=
  let old_date := st.current_date
  let st' := { st with current_date := some date }
  match old_date with
  | some d => if d ≠ date then StrategyAdapter.unlock_t1 st' date else st'
  | none => st'

/-- `StrategyAdapter._validate_and_build_order`.  Returns `none` for actions
other than buy/sell, raises `ValueError` for a buy amount that is not a
multiple of 100 (`order['amount'] % 100 != 0`), else returns the order. -/
def StrategyAdapter.validate_and_build_order (strategy_id : Int)
    (current_date : Option String) (sg : Signal) (bar : Bar) :
    Except AdapterError (Option Order) :=
  if sg.action = "buy" ∨ sg.action = "sell" then
    let order : Order :=
      { action := sg.action, symbol := sg.symbol, amount := sg.amount,
        price := sg.price.getD bar.close, strategy_id := strategy_id,
        date := current_date }
    if sg.action = "buy" ∧ order.amount % 100 ≠ 0 then
      .error (.valueError "买入数量必须是100的整数倍")
    else .ok (some order)
  else .ok none

/-- `StrategyAdapter._add_t1_lock`: accumulate onto an existing lock or create
a fresh one dated with the order's date. -/
def StrategyAdapter.add_t1_lock {σ : Type} (st : AdapterState σ) (o : Order) :
    AdapterState σ :=
  match lookupS st.t1_locks o.symbol with
  | some li =>
      { st with t1_locks := updateS st.t1_locks o.symbol { li with amount := li.amount + o.amount } }
  | none =>
      { st with t1_locks := updateS st.t1_locks o.symbol ⟨o.amount, o.date⟩ }

/-- `StrategyAdapter._check_t1_sellable`: sellable unless the symbol carries a
lock dated exactly `current_date`. -/
def StrategyAdapter.check_t1_sellable {σ : Type} (st : AdapterState σ) (o : Order) : Bool :=
  match lookupS st.t1_locks o.symbol with
  | none => true
  | some li =>
      if oltDate li.lock_date st.current_date then true
      else if li.lock_date == st.current_date then false
      else true

/-- The three shapes of a non-raising `process_bar` return value: `None`, the
actionless signal passed through unchanged, or a validated order. -/
inductive PBResult
  | noneR
  | passthrough
  | order (o : Order)
deriving Repr

/-- `StrategyAdapter.process_bar`: update the date, run the strategy, validate
the signal into an order, add the T+1 lock on buys, and suppress sells locked
today.  The final `let st3`/`if` pair mirrors the two sequential `if order and
…` statements of the source. -/
def StrategyAdapter.process_bar {σ : Type} (strat : Strategy σ) (strategy_id : Int)
    (st : AdapterState σ) (bar : Bar) :
    Except AdapterError (PBResult × AdapterState σ) :=
  let st1 := StrategyAdapter.update_current_date st bar.date
  match StandardStrategy.on_bar strat st1.stratState bar with
  | .error e => .error e
  | .ok (out, s') =>
    let st2 : AdapterState σ := { st1 with stratState := s' }
    match out with
    | .noSignal => .ok (.noneR, st2)
    | .info => .ok (.passthrough, st2)
    | .sig sg =>
      match StrategyAdapter.validate_and_build_order strategy_id st2.current_date sg bar with
      | .error e => .error e
      | .ok none => .ok (.noneR, st2)
      | .ok (some o) =>
        let st3 := if o.action = "buy" then StrategyAdapter.add_t1_lock st2 o else st2
        if o.action = "sell" ∧ StrategyAdapter.check_t1_sellable st3 o = false then
          .ok (.noneR, st3)
        else .ok (.order o, st3)

/-! ### BacktestEngine (`app/services/backtest_engine.py`) -/

/-- The constructor parameters of `BacktestEngine.__init__` (defaults as in the
source signature). -/
structure EngineConfig where
  initial_cash : ℚ := 100000
  enable_china_rules : Bool := true
  commission_rate : ℚ := 3/10000
  min_commission : ℚ := 5
  stamp_tax_rate : ℚ := 1/1000
  slippage_rate : ℚ := 1/1000
deriving Repr

/-- One entry of `self.trades`.  Buy entries carry `cost`, sell entries carry
`tax`, `revenue` and `profit`; absent dict keys are `none`. -/
structure Trade where
  date : String
  action : String
  symbol : String
  price : ℚ
  amount : Int
  commission : ℚ
  cost : Option ℚ := none
  tax : Option ℚ := none
  revenue : Option ℚ := none
  profit : Option ℚ := none
deriving DecidableEq, Repr

/-- The mutable engine state (`self.cash`, `self.positions`, `self.trades`,
`self.portfolio_values`; `self.daily_returns` is written nowhere relevant). -/
structure EngineState where
  cash : ℚ
  positions : List (String × Int) := []
  trades : List Trade := []
  portfolio_values : List ℚ := []
deriving Repr

/-- `BacktestEngine.__init__`.  The source body only stores the parameters and
resets the state; it contains no validation whatsoever and therefore cannot
fail, so the translation always returns `ok`. -/
def BacktestEngine.construct (initial_cash : ℚ) (enable_china_rules : Bool)
    (commission_rate min_commission stamp_tax_rate slippage_rate : ℚ) :
    Except String (EngineConfig × EngineState) :=
  .ok ({ initial_cash := initial_cash, enable_china_rules := enable_china_rules,
         commission_rate := commission_rate, min_commission := min_commission,
         stamp_tax_rate := stamp_tax_rate, slippage_rate := slippage_rate },
       { cash := initial_cash, positions := [], trades := [], portfolio_values := [] })

/-- `BacktestEngine._reset` (run start): note `portfolio_values = [initial_cash]`. -/
def BacktestEngine.reset (cfg : EngineConfig) : EngineState :=
  { cash := cfg.initial_cash, positions := [], trades := [],
    portfolio_values := [cfg.initial_cash] }

/-- `BacktestEngine._calculate_commission` (`is_buy` is unused in the formula,
as in the source). -/
def BacktestEngine.calculate_commission (cfg : EngineConfig) (amount : ℚ)
    (is_buy : Bool) : ℚ :=
  max (amount * cfg.commission_rate) cfg.min_commission

/-- `BacktestEngine._calculate_stamp_tax` (sell side only). -/
def BacktestEngine.calculate_stamp_tax (cfg : EngineConfig) (amount : ℚ) : ℚ :=
  amount * cfg.stamp_tax_rate

/-- `BacktestEngine._apply_slippage`: worsen the trader's price directionally. -/
def BacktestEngine.apply_slippage (cfg : EngineConfig) (price : ℚ) (is_buy : Bool) : ℚ :=
  if is_buy then price * (1 + cfg.slippage_rate) else price * (1 - cfg.slippage_rate)

/-- `BacktestEngine._validate_buy_amount` (multiples of 100). -/
def BacktestEngine.validate_buy_amount (amount : Int) : Bool :=
  amount % 100 == 0

/-- `BacktestEngine._is_suspended` (`volume == 0`). -/
def BacktestEngine.is_suspended (bar : Bar) : Bool :=
  bar.volume == 0

/-- `BacktestEngine._calculate_portfolio_value`. -/
def BacktestEngine.calculate_portfolio_value (st : EngineState) (current_price : ℚ) : ℚ :=
  st.cash + (st.positions.map (fun p => (p.2 : ℚ) * current_price)).sum

/-- `BacktestEngine._execute_trade`.  The signal's `action`/`amount` are read;
the execution price is the bar's close, slippage-adjusted under china rules.
Rejections (bad lot size, insufficient cash, insufficient position) are silent
no-ops returning the state unchanged. -/
def BacktestEngine.execute_trade (cfg : EngineConfig) (st : EngineState)
    (action : String) (amount : Int) (bar : Bar) (symbol : String) : EngineState :=
  let price := bar.close
  let price := if cfg.enable_china_rules then
      BacktestEngine.apply_slippage cfg price (action = "buy") else price
  if action = "buy" then
    if cfg.enable_china_rules ∧ BacktestEngine.validate_buy_amount amount = false then st
    else
      let cost := price * (amount : ℚ)
      let commission := BacktestEngine.calculate_commission cfg cost true
      let total_cost := cost + commission
      if total_cost > st.cash then st
      else
        { st with
          cash := st.cash - total_cost,
          positions := updateS st.positions symbol ((lookupS st.positions symbol).getD 0 + amount),
          trades := st.trades ++ [{ date := bar.date, action := "buy", symbol := symbol,
                                    price := price, amount := amount,
                                    commission := commission, cost := some total_cost }] }
  else if action = "sell" then
    match lookupS st.positions symbol with
    | none => st
    | some pos =>
      if pos < amount then st
      else
        let revenue := price * (amount : ℚ)
        let commission := BacktestEngine.calculate_commission cfg revenue false
        let tax := if cfg.enable_china_rules then
            BacktestEngine.calculate_stamp_tax cfg revenue else 0
        let total_cost := commission + tax
        let net_revenue := revenue - total_cost
        -- most recent buy trade of this symbol, for realized profit
        let buy_trade := st.trades.reverse.find?
          (fun t => t.action == "buy" && t.symbol == symbol)
        let profit : ℚ := match buy_trade with
          | some bt => (price - bt.price) * (amount : ℚ) - total_cost
          | none => 0
        { st with
          cash := st.cash + net_revenue,
          positions := updateS st.positions symbol (pos - amount),
          trades := st.trades ++ [{ date := bar.date, action := "sell", symbol := symbol,
                                    price := price, amount := amount,
                                    commission := commission, tax := some tax,
                                    revenue := some net_revenue, profit := some profit }] }
  else st

/-- The per-run composite state of `BacktestEngine.run`: the engine's ledger
plus the one `StrategyAdapter` it constructs. -/
structure RunState (σ : Type) where
  adapter : AdapterState σ
  engine : EngineState

/-- The bar loop of `BacktestEngine.run`: skip suspended bars under china
rules, call `adapter.process_bar`, execute returned orders, append portfolio
value.  Exceptions escaping `process_bar` are NOT caught anywhere in `run`:
they abort the remaining loop (`Except.error`). -/
def BacktestEngine.runBars {σ : Type} (cfg : EngineConfig) (strat : Strategy σ)
    (symbol : String) : List Bar → RunState σ → Except AdapterError (RunState σ)
  | [], rs => .ok rs
  | bar :: rest, rs =>
    if cfg.enable_china_rules ∧ BacktestEngine.is_suspended bar then
      BacktestEngine.runBars cfg strat symbol rest rs
    else
      match StrategyAdapter.process_bar strat 1 rs.adapter bar with
      | .error e => .error e
      | .ok (res, a') =>
        let eng' := match res with
          | .order o => BacktestEngine.execute_trade cfg rs.engine o.action o.amount bar symbol
          | _ => rs.engine
        let eng'' := { eng' with portfolio_values :=
            eng'.portfolio_values ++ [BacktestEngine.calculate_portfolio_value eng' bar.close] }
        BacktestEngine.runBars cfg strat symbol rest ⟨a', eng''⟩

/-- `BacktestEngine.run` up to metric derivation: reset the ledger, construct a
fresh adapter (`strategy_id = 1`, empty lock table, no date) and fold the bar
loop.  The final `_calculate_metrics` call is pure post-processing of the
resulting state and is not needed by any claim below. -/
def BacktestEngine.runStates {σ : Type} (cfg : EngineConfig) (strat : Strategy σ)
    (s0 : σ) (bars : List Bar) (symbol : String) : Except AdapterError (RunState σ) :=
  BacktestEngine.runBars cfg strat symbol bars
    ⟨{ stratState := s0, t1_locks := [], current_date := none }, BacktestEngine.reset cfg⟩

/-! ### CodeSecurityChecker / ComplexityVisitor (`app/services/ai_generator.py`)

The Python AST is embedded keeping exactly the node shapes the checker
inspects.  A chained boolean expression `a and b and c` parses to ONE
`BoolOp` node whose `op` field is a single `And` node, so `visit_And` fires
once per `BoolOp`, which the `boolOpAnd`/`boolOpOr` constructors mirror.
`other` covers every remaining node kind with its child list. -/

inductive PyAst where
  | ifStmt (children : List PyAst)
  | forStmt (children : List PyAst)
  | whileStmt (children : List PyAst)
  | boolOpAnd (children : List PyAst)
  | boolOpOr (children : List PyAst)
  | exceptHandler (children : List PyAst)
  | importStmt (names : List String)
  | importFrom (module : Option String) (children : List PyAst)
  | call (funcName : Option String) (children : List PyAst)
  | classDef (methods : List String) (children : List PyAst)
  | other (children : List PyAst)
deriving Repr

mutual
/-- `ast.walk`: the node itself and all of its descendants (the source uses
breadth-first order; only membership counts matter for every use below). -/
def PyAst.walk : PyAst → List PyAst
  | .ifStmt c => .ifStmt c :: PyAst.walkList c
  | .forStmt c => .forStmt c :: PyAst.walkList c
  | .whileStmt c => .whileStmt c :: PyAst.walkList c
  | .boolOpAnd c => .boolOpAnd c :: PyAst.walkList c
  | .boolOpOr c => .boolOpOr c :: PyAst.walkList c
  | .exceptHandler c => .exceptHandler c :: PyAst.walkList c
  | .importStmt ns => [.importStmt ns]
  | .importFrom m c => .importFrom m c :: PyAst.walkList c
  | .call f c => .call f c :: PyAst.walkList c
  | .classDef ms c => .classDef ms c :: PyAst.walkList c
  | .other c => .other c :: PyAst.walkList c

def PyAst.walkList : List PyAst → List PyAst
  | [] => []
  | t :: ts => PyAst.walk t ++ PyAst.walkList ts
end

/-- The node kinds for which `ComplexityVisitor` defines a `visit_…` method
(`If`, `For`, `While`, `And`, `Or`, `ExceptHandler`). -/
def PyAst.isBranch : PyAst → Bool
  | .ifStmt _ => true
  | .forStmt _ => true
  | .whileStmt _ => true
  | .boolOpAnd _ => true
  | .boolOpOr _ => true
  | .exceptHandler _ => true
  | _ => false

/-- `calculate_complexity` on a successfully parsed tree: the visitor starts
at `self.complexity = 1` and adds 1 for every branch node the traversal
visits.  A `SyntaxError` (`none`) yields 0. -/
def calculate_complexity : Option PyAst → Nat
  | none => 0
  | some t => 1 + (t.walk.filter PyAst.isBranch).length

/-- `CodeSecurityChecker.DANGEROUS_MODULES`. -/
def DANGEROUS_MODULES : List String :=
  ["os", "sys", "subprocess", "shutil", "pathlib",
   "socket", "urllib", "http", "ftplib", "telnetlib",
   "__import__", "importlib", "pickle", "shelve",
   "ctypes", "multiprocessing", "threading"]

/-- `CodeSecurityChecker.DANGEROUS_FUNCTIONS`. -/
def DANGEROUS_FUNCTIONS : List String :=
  ["eval", "exec", "compile", "__import__",
   "open", "file", "input", "raw_input",
   "globals", "locals", "vars", "dir",
   "getattr", "setattr", "delattr", "hasattr"]

/-- `CodeSecurityChecker.REQUIRED_METHODS`. -/
def REQUIRED_METHODS : List String := ["on_bar"]

/-- `CodeSecurityChecker._check_imports`: walk the tree collecting the
denylisted targets (`Import` alias names; `ImportFrom` modules). -/
def checkImports (t : PyAst) : List String :=
  t.walk.foldl (fun acc n =>
    match n with
    | .importStmt names => acc ++ names.filter (fun nm => DANGEROUS_MODULES.contains nm)
    | .importFrom (some m) _ =>
        if DANGEROUS_MODULES.contains m then acc ++ [m] else acc
    | _ => acc) []

/-- `CodeSecurityChecker._check_function_calls`: calls whose `func` is a plain
name in the denylist. -/
def checkCalls (t : PyAst) : List String :=
  t.walk.foldl (fun acc n =>
    match n with
    | .call (some f) _ =>
        if DANGEROUS_FUNCTIONS.contains f then acc ++ [f] else acc
    | _ => acc) []

/-- `CodeSecurityChecker._get_method_names`: function names declared in class
bodies anywhere in the tree. -/
def getMethodNames (t : PyAst) : List String :=
  t.walk.foldl (fun acc n =>
    match n with
    | .classDef ms _ => acc ++ ms
    | _ => acc) []

/-- `CodeSecurityChecker._check_required_methods`. -/
def checkRequiredMethods (t : PyAst) : List String :=
  REQUIRED_METHODS.filter (fun m => !(getMethodNames t).contains m)

/-- The outcomes of `CodeSecurityChecker.check` (each `safe = False` return has
a distinct message; `safe` carries the computed complexity from `details`). -/
inductive CheckResult
  | syntaxError
  | dangerousImports (l : List String)
  | dangerousCalls (l : List String)
  | missingMethods (l : List String)
  | complexityTooHigh (c : Nat)
  | safe (c : Nat)
deriving DecidableEq, Repr

/-- The `max_complexity` default of `CodeSecurityChecker.__init__`. -/
def defaultMaxComplexity : Nat := 20

/-- `CodeSecurityChecker.check`: the five checks in source order, each failure
returning immediately.  The source text is represented by its parse result
(`ast.parse` is deterministic, so the re-parse inside `calculate_complexity`
sees the same tree). -/
def CodeSecurityChecker.check (max_complexity : Nat) (parsed : Option PyAst) :
    CheckResult :=
  match parsed with
  | none => .syntaxError
  | some tree =>
    let dangerous_imports := checkImports tree
    if dangerous_imports ≠ [] then .dangerousImports dangerous_imports
    else
      let dangerous_calls := checkCalls tree
      if dangerous_calls ≠ [] then .dangerousCalls dangerous_calls
      else
        let missing_methods := checkRequiredMethods tree
        if missing_methods ≠ [] then .missingMethods missing_methods
        else
          let complexity := calculate_complexity (some tree)
          if complexity > max_complexity then .complexityTooHigh complexity
          else .safe complexity

/-! ### Named forms of the metrics used inside `validate` (for stating the
risk-score decomposition and veto conditions of the claims) -/

def RiskValidator.total_loss_rate (v : RiskValidator) : ℚ :=
  (v.total_capital - v.current_account_value) / v.total_capital

def RiskValidator.daily_loss_rate (v : RiskValidator) : ℚ :=
  (v.daily_start_value - v.current_account_value) / v.daily_start_value

def RiskValidator.capital_rate (v : RiskValidator) (sig : RiskSignal) : ℚ :=
  ((lookupI v.strategy_capitals sig.strategy_id).getD 0 + sig.amount * sig.price) /
    v.total_capital

def RiskValidator.trade_rate (v : RiskValidator) (sig : RiskSignal) : ℚ :=
  (sig.amount * sig.price) / v.total_capital

/-- Layer 1 soft score: +20 once the total loss crosses 50% of its limit. -/
def layer1Score (v : RiskValidator) : Nat :=
  if v.total_loss_rate > v.max_total_loss_rate * (1/2) then 20 else 0

/-- Layer 3 soft score: +15 once the daily loss crosses 50% of its limit. -/
def layer3Score (v : RiskValidator) : Nat :=
  if v.daily_loss_rate > v.max_daily_loss_rate * (1/2) then 15 else 0

/-- Layer 4 soft score: +15 on buys once occupation crosses 70% of its limit. -/
def layer4Score (v : RiskValidator) (sig : RiskSignal) : Nat :=
  if sig.action = some "buy" ∧ v.capital_rate sig > v.max_strategy_capital_rate * (7/10)
  then 15 else 0

/-- Layer 5 soft score: +20 above 70%, else +10 above 50%, of its limit. -/
def layer5Score (v : RiskValidator) (sig : RiskSignal) : Nat :=
  if v.trade_rate sig > v.max_single_trade_rate * (7/10) then 20
  else if v.trade_rate sig > v.max_single_trade_rate * (1/2) then 10 else 0

/-- Layer 6 soft score: +15 once the hourly trade count crosses 70% of the cap. -/
def layer6Score (v : RiskValidator) (now : ℚ) : Nat :=
  if (v.count_recent_trades now : ℚ) > (v.max_trades_per_hour : ℚ) * (7/10) then 15 else 0

/-- The hard veto conditions of layers 1–6, in layer order. -/
def RiskValidator.anyVetoPre (v : RiskValidator) (now : ℚ) (sig : RiskSignal) : Bool :=
  (v.total_loss_rate > v.max_total_loss_rate : Bool) ||
  v.is_blacklisted sig.symbol ||
  (v.daily_loss_rate > v.max_daily_loss_rate : Bool) ||
  ((sig.action = some "buy" : Bool) && (v.capital_rate sig > v.max_strategy_capital_rate : Bool)) ||
  (v.trade_rate sig > v.max_single_trade_rate : Bool) ||
  (v.count_recent_trades now ≥ v.max_trades_per_hour : Bool)

/-- The layer 7 veto condition: a recorded previous close whose limit check
does not allow the order. -/
def RiskValidator.limitVeto (v : RiskValidator) (sig : RiskSignal) : Bool :=
  match lookupS v.prev_close_prices sig.symbol with
  | none => false
  | some prev_close =>
    (RiskValidator.check_limit_price sig.symbol sig.price prev_close sig.action ≠ .allowed : Bool)

/-- Some layer vetoes. -/
def RiskValidator.anyVeto (v : RiskValidator) (now : ℚ) (sig : RiskSignal) : Bool :=
  v.anyVetoPre now sig || v.limitVeto sig

/-! ### Per-kind branch-node counters (for the complexity claim) -/

def PyAst.isIf : PyAst → Bool | .ifStmt _ => true | _ => false
def PyAst.isFor : PyAst → Bool | .forStmt _ => true | _ => false
def PyAst.isWhile : PyAst → Bool | .whileStmt _ => true | _ => false
def PyAst.isBoolOp : PyAst → Bool | .boolOpAnd _ => true | .boolOpOr _ => true | _ => false
def PyAst.isExcept : PyAst → Bool | .exceptHandler _ => true | _ => false

/-- Number of conditionals in the tree. -/
def countIf (t : PyAst) : Nat := (t.walk.filter PyAst.isIf).length
/-- Number of `for` loops in the tree. -/
def countFor (t : PyAst) : Nat := (t.walk.filter PyAst.isFor).length
/-- Number of `while` loops in the tree. -/
def countWhile (t : PyAst) : Nat := (t.walk.filter PyAst.isWhile).length
/-- Number of logical and/or operator nodes in the tree. -/
def countBoolOp (t : PyAst) : Nat := (t.walk.filter PyAst.isBoolOp).length
/-- Number of exception handlers in the tree. -/
def countExcept (t : PyAst) : Nat := (t.walk.filter PyAst.isExcept).length

/-! ### Concrete instances used by witnesses and counterexamples -/

/-- A strategy that buys `n` shares of `symbol` on its first call and attempts
to sell the same `n` shares on every later call (its instance state is the
call counter). -/
def buyThenSell (symbol : String) (n : Int) : Strategy Nat := fun k _bar =>
  .ok (.sig (if k = 0 then { action := "buy", symbol := symbol, amount := n }
             else { action := "sell", symbol := symbol, amount := n }), k + 1)

/-- A strategy whose `on_bar` always raises (message "boom"). -/
def raisingStrategy : Strategy Unit := fun _ _ => .error "boom"

/-- A strategy that emits a buy for 0 shares (0 is a multiple of 100 but not a
positive one). -/
def buyZeroStrategy : Strategy Unit := fun s _ =>
  .ok (.sig { action := "buy", symbol := "SH600000", amount := 0 }, s)

/-- A strategy that emits a buy for a configurable amount on every call. -/
def buyAmountStrategy (n : Int) : Strategy Unit := fun s _ =>
  .ok (.sig { action := "buy", symbol := "SH600000", amount := n }, s)

/-- Engine config with 1 unit of cash and all costs off (used to exhibit a
buy rejected for insufficient cash). -/
def cfgTinyCash : EngineConfig :=
  { initial_cash := 1, enable_china_rules := false, commission_rate := 0,
    min_commission := 0, stamp_tax_rate := 0, slippage_rate := 0 }

/-- A plain bar on 2024-01-01 at close 10. -/
def barJan1 : Bar := { date := "2024-01-01", close := 10, volume := 100 }

/-- The adapter state after `buyThenSell "X" 100` has placed its (ledger-
rejected) buy on 2024-01-01. -/
def adapterAfterBuy : AdapterState Nat :=
  { stratState := 1, t1_locks := [("X", { amount := 100, lock_date := some "2024-01-01" })],
    current_date := some "2024-01-01" }

/-- A healthy validator over 100000 of capital (defaults of `__init__`). -/
def vHealthy : RiskValidator :=
  { total_capital := 100000, current_account_value := 100000, daily_start_value := 100000 }

/-- Same validator with "SH600000" blacklisted. -/
def vBlack : RiskValidator :=
  { total_capital := 100000, current_account_value := 100000, daily_start_value := 100000,
    blacklist := ["SH600000"] }

/-- A buy signal for 100000 notional of "SH600000" (oversized: 100% of
capital, above the 20% single-trade cap). -/
def sigBig : RiskSignal :=
  { action := some "buy", symbol := "SH600000", amount := 10000, price := 10 }

/-- A modest buy signal for 1000 notional of "SH600001". -/
def sigSmall : RiskSignal :=
  { action := some "buy", symbol := "SH600001", amount := 100, price := 10 }

/-- A parse tree with one class declaring `on_bar`, one `if`, one `and`, and
one `for`: complexity 4. -/
def treeSmall : PyAst :=
  .classDef ["on_bar"]
    [.ifStmt [.boolOpAnd [.other [], .other []]], .forStmt []]

/-! ### Shared helper lemmas -/

theorem charsLt_irrefl (l : List Char) : charsLt l l = false := by
  induction l with
  | nil => rfl
  | cons a as ih => simp [charsLt, ih, lt_irrefl]

theorem strLt_irrefl (s : String) : strLt s s = false := charsLt_irrefl s.data

theorem strLt_ne {a b : String} (h : strLt a b = true) : a ≠ b := by
  intro e; subst e; rw [strLt_irrefl] at h; exact Bool.false_ne_true h

theorem lookupS_cons {α : Type} (a : String × α) (l : List (String × α)) (k : String) :
    lookupS (a :: l) k = if a.1 == k then some a.2 else lookupS l k := by
  by_cases h : a.1 == k
  · simp [lookupS, List.find?_cons_of_pos, h]
  · simp [lookupS, List.find?_cons_of_neg, h]

theorem lookupS_map_update {α : Type} (l : List (String × α)) (k : String) (v : α)
    (h : (l.find? (fun p => p.1 == k)).isSome = true) :
    lookupS (l.map (fun p => if p.1 == k then (k, v) else p)) k = some v := by
  induction l with
  | nil => simp at h
  | cons a l ih =>
    by_cases ha : a.1 == k
    · simp only [List.map_cons, if_pos ha]
      simp [lookupS_cons]
    · rw [@List.find?_cons_of_neg _ (fun p => p.1 == k) a l ha] at h
      simp only [List.map_cons, if_neg ha]
      rw [lookupS_cons, if_neg ha]
      exact ih h

theorem lookupS_append_new {α : Type} (l : List (String × α)) (k : String) (v : α)
    (h : (l.find? (fun p => p.1 == k)).isSome = false) :
    lookupS (l ++ [(k, v)]) k = some v := by
  induction l with
  | nil => simp [lookupS, List.find?]
  | cons a l ih =>
    by_cases ha : a.1 == k
    · simp [List.find?_cons_of_pos, ha] at h
    · rw [@List.find?_cons_of_neg _ (fun p => p.1 == k) a l ha] at h
      rw [List.cons_append, lookupS_cons, if_neg ha]
      exact ih h

theorem lookupS_updateS_self {α : Type} (l : List (String × α)) (k : String) (v : α) :
    lookupS (updateS l k v) k = some v := by
  unfold updateS
  by_cases h : (l.find? (fun p => p.1 == k)).isSome
  · rw [if_pos h]; exact lookupS_map_update l k v h
  · rw [if_neg h]
    exact lookupS_append_new l k v (by simp only [Bool.not_eq_true] at h; exact h)

/-- `validate` restated over the named layer metrics; the right-hand side is
definitionally equal to the translation (the named metrics unfold to the
very same expressions). -/
theorem validate_eq (v : RiskValidator) (now : ℚ) (sig : RiskSignal) :
    v.validate now sig =
      if v.total_loss_rate > v.max_total_loss_rate then ⟨false, .totalLoss, 100⟩
      else if v.is_blacklisted sig.symbol then ⟨false, .blacklisted, 100⟩
      else if v.daily_loss_rate > v.max_daily_loss_rate then ⟨false, .dailyLoss, 100⟩
      else if sig.action = some "buy" ∧ v.capital_rate sig > v.max_strategy_capital_rate then
        ⟨false, .strategyCapital, 100⟩
      else if v.trade_rate sig > v.max_single_trade_rate then ⟨false, .singleTrade, 100⟩
      else if v.count_recent_trades now ≥ v.max_trades_per_hour then ⟨false, .frequency, 100⟩
      else
        let score := layer1Score v + layer3Score v + layer4Score v sig +
          layer5Score v sig + layer6Score v now
        match lookupS v.prev_close_prices sig.symbol with
        | none => ⟨true, .pass, score⟩
        | some prev_close =>
          match RiskValidator.check_limit_price sig.symbol sig.price prev_close sig.action with
          | .allowed => ⟨true, .pass, score⟩
          | .limitUp => ⟨false, .limitUp, 100⟩
          | .limitDown => ⟨false, .limitDown, 100⟩ := rfl

theorem layerSum_le (v : RiskValidator) (now : ℚ) (sig : RiskSignal) :
    layer1Score v + layer3Score v + layer4Score v sig + layer5Score v sig +
      layer6Score v now ≤ 100 := by
  unfold layer1Score layer3Score layer4Score layer5Score layer6Score
  split_ifs <;> omega

/-! ### Claim C9 -/

/-- Claim C9 counterexample: constructing the engine with `initial_cash = -1`
(and the source's default cost parameters) does NOT raise — `__init__`
contains no validation, so the claimed rejection of non-positive initial
cash does not happen. -/
theorem c9_counterexample :
    BacktestEngine.construct (-1) true (3/10000) 5 (1/1000) (1/1000) =
      .ok ({ initial_cash := -1, enable_china_rules := true, commission_rate := 3/10000,
             min_commission := 5, stamp_tax_rate := 1/1000, slippage_rate := 1/1000 },
           { cash := -1, positions := [], trades := [], portfolio_values := [] }) := rfl

/-- Claim C9 (amended): construction never fails — for every `initial_cash`
(positive or not) and every parameter combination, `__init__` succeeds and
the engine starts with `cash = initial_cash`; no configuration validation is
performed at construction time. -/
theorem c9_construct_total (c : ℚ) (b : Bool) (r1 r2 r3 r4 : ℚ) :
    BacktestEngine.construct c b r1 r2 r3 r4 =
      .ok ({ initial_cash := c, enable_china_rules := b, commission_rate := r1,
             min_commission := r2, stamp_tax_rate := r3, slippage_rate := r4 },
           { cash := c, positions := [], trades := [], portfolio_values := [] }) := rfl

/-! ### Claim C4 -/

/-- Claim C4: the layers are checked in order and the first veto wins — for a
signal whose symbol is blacklisted (layer 2) and whose notional exceeds the
single-trade cap (layer 5), the result is the layer-2 veto whenever layer 1
does not fire first, and the single-trade reason is never reported. -/
theorem c4_blacklist_priority (v : RiskValidator) (now : ℚ) (sig : RiskSignal)
    (hbl : v.is_blacklisted sig.symbol = true)
    (hsz : v.trade_rate sig > v.max_single_trade_rate) :
    (v.total_loss_rate ≤ v.max_total_loss_rate →
      v.validate now sig = ⟨false, .blacklisted, 100⟩)
    ∧ (v.validate now sig).reason ≠ .singleTrade := by
  constructor
  · intro h1
    rw [validate_eq, if_neg (not_lt.mpr h1), if_pos hbl]
  · rw [validate_eq]
    by_cases h1 : v.total_loss_rate > v.max_total_loss_rate
    · simp [h1]
    · rw [if_neg h1, if_pos hbl]; simp

/-- Claim C4 witness: a blacklisted, oversized buy against a healthy account
reports the blacklist veto. -/
theorem c4_witness :
    RiskValidator.validate vBlack 0 sigBig = ⟨false, .blacklisted, 100⟩ ∧
    (RiskValidator.validate vBlack 0 sigBig).reason ≠ .singleTrade := by
  have h := c4_blacklist_priority vBlack 0 sigBig (by decide)
    (by norm_num [RiskValidator.trade_rate, sigBig, vBlack])
  exact ⟨h.1 (by norm_num [RiskValidator.total_loss_rate, vBlack]), h.2⟩

/-! ### Claim C5 -/

/-- Characterization of `validate` shared by the risk-gate claims: bounded
score, `passed` ↔ no hard veto, and the score decomposition on a pass. -/
theorem validate_master (v : RiskValidator) (now : ℚ) (sig : RiskSignal) :
    ((v.validate now sig).risk_score ≤ 100)
    ∧ ((v.validate now sig).passed = !(v.anyVeto now sig))
    ∧ ((v.validate now sig).passed = true →
        (v.validate now sig).risk_score =
          layer1Score v + layer3Score v + layer4Score v sig + layer5Score v sig +
          layer6Score v now) := by
  have hsum := layerSum_le v now sig
  rw [validate_eq]
  unfold RiskValidator.anyVeto RiskValidator.anyVetoPre RiskValidator.limitVeto
  split_ifs with h1 h2 h3 h4 h5 h6
  · simp [h1]
  · simp [h2]
  · simp [h3]
  · simp [h4.1, h4.2]
  · simp [h5]
  · simp [h6]
  · have h4' : ¬sig.action = some "buy" ∨ v.capital_rate sig ≤ v.max_strategy_capital_rate := by
      rcases Decidable.not_and_iff_or_not.mp h4 with h | h
      · exact Or.inl h
      · exact Or.inr (not_lt.mp h)
    cases hpc : lookupS v.prev_close_prices sig.symbol with
    | none =>
      simp [hpc, h1, h2, h3, h5, h6, hsum]
      exact h4'
    | some pc =>
      cases hcl : RiskValidator.check_limit_price sig.symbol sig.price pc sig.action with
      | allowed =>
        simp [hpc, hcl, h1, h2, h3, h5, h6, hsum]
        exact h4'
      | limitUp => simp [hpc, hcl]
      | limitDown => simp [hpc, hcl]

/-- Claim C5: for every signal the risk score is bounded by 100 (it is a
natural number, hence also ≥ 0); `passed` is exactly the absence of any
layer's hard veto — the accumulated score never causes a veto — and on a
pass the score is the sum of the fixed per-layer soft contributions of
layers 1, 3, 4, 5 and 6. -/
theorem c5_risk_score (v : RiskValidator) (now : ℚ) (sig : RiskSignal) :
    ((v.validate now sig).risk_score ≤ 100)
    ∧ ((v.validate now sig).passed = !(v.anyVeto now sig))
    ∧ ((v.validate now sig).passed = true →
        (v.validate now sig).risk_score =
          layer1Score v + layer3Score v + layer4Score v sig + layer5Score v sig +
          layer6Score v now) :=
  validate_master v now sig

/-- Claim C5 witness: a healthy account and a modest buy pass with the
decomposed score. -/
theorem c5_witness :
    (RiskValidator.validate vHealthy 0 sigSmall).risk_score =
      layer1Score vHealthy + layer3Score vHealthy + layer4Score vHealthy sigSmall +
      layer5Score vHealthy sigSmall + layer6Score vHealthy 0 :=
  (c5_risk_score vHealthy 0 sigSmall).2.2 (by
    rw [validate_eq]
    norm_num [RiskValidator.total_loss_rate, RiskValidator.daily_loss_rate,
      RiskValidator.capital_rate, RiskValidator.trade_rate,
      RiskValidator.count_recent_trades, RiskValidator.is_blacklisted,
      lookupI, lookupS, vHealthy, sigSmall, st_keywords, strContains,
      charsSub, charsPre, List.find?]
    rw [if_neg (by decide)])

/-! ### Claim C10 -/

/-- Claim C10: when no previous close is recorded for the signal's symbol —
or the recorded previous close is 0 — layer 7 is skipped entirely: a
limit-up/limit-down veto is never produced, and if no other layer vetoes the
signal passes at any price. -/
theorem c10_no_prev_close_skips_limit (v : RiskValidator) (now : ℚ) (sig : RiskSignal)
    (hpc : lookupS v.prev_close_prices sig.symbol = none ∨
           lookupS v.prev_close_prices sig.symbol = some 0) :
    ((v.validate now sig).reason ≠ .limitUp ∧ (v.validate now sig).reason ≠ .limitDown)
    ∧ (v.anyVetoPre now sig = false → (v.validate now sig).passed = true) := by
  have hlv : v.limitVeto sig = false := by
    unfold RiskValidator.limitVeto
    rcases hpc with h | h <;> rw [h]
    simp [RiskValidator.check_limit_price]
  constructor
  · rw [validate_eq]
    split_ifs <;> try simp
    rcases hpc with h | h <;> rw [h]
    · simp
    · simp [RiskValidator.check_limit_price]
  · intro hpre
    have hv : v.anyVeto now sig = false := by
      unfold RiskValidator.anyVeto; rw [hpre, hlv]; rfl
    rw [(validate_master v now sig).2.1, hv]; rfl

/-- Claim C10 witness: with no recorded previous close, a buy passes even at a
price ten times any plausible prior close, and no limit veto is reported. -/
theorem c10_witness :
    ((RiskValidator.validate vHealthy 0 sigSmall).reason ≠ .limitUp ∧
     (RiskValidator.validate vHealthy 0 sigSmall).reason ≠ .limitDown)
    ∧ (RiskValidator.validate vHealthy 0 sigSmall).passed = true := by
  have h := c10_no_prev_close_skips_limit vHealthy 0 sigSmall (Or.inl rfl)
  refine ⟨h.1, h.2 ?_⟩
  norm_num [RiskValidator.anyVetoPre, RiskValidator.total_loss_rate,
    RiskValidator.daily_loss_rate, RiskValidator.capital_rate, RiskValidator.trade_rate,
    RiskValidator.count_recent_trades, lookupI, vHealthy, sigSmall, List.find?]
  decide

/-! ### Claim C6 -/

/-- Claim C6 (amended): the adapter raises the lot-size `ValueError` on a buy
signal exactly when the amount is not a multiple of 100 — positivity is NOT
required (amount 0, or −100, passes the check); consequently every buy order
that is returned has an amount divisible by 100 (but not necessarily a
positive one). -/
theorem c6_lot_size {σ : Type} (strat : Strategy σ) (sid : Int) (st : AdapterState σ)
    (bar : Bar) (sg : Signal) (s' : σ)
    (hs : strat (StrategyAdapter.update_current_date st bar.date).stratState bar =
          .ok (.sig sg, s'))
    (hbuy : sg.action = "buy") :
    ((∃ m, StrategyAdapter.process_bar strat sid st bar = .error (.valueError m)) ↔
      sg.amount % 100 ≠ 0)
    ∧ (∀ o st2, StrategyAdapter.process_bar strat sid st bar = .ok (.order o, st2) →
        o.amount % 100 = 0) := by
  have hw : StandardStrategy.on_bar strat
      (StrategyAdapter.update_current_date st bar.date).stratState bar = .ok (.sig sg, s') := by
    unfold StandardStrategy.on_bar; rw [hs]
  unfold StrategyAdapter.process_bar
  simp only [hw]
  by_cases hm : sg.amount % 100 = 0
  · simp [StrategyAdapter.validate_and_build_order, hbuy, hm]
    exact Int.dvd_of_emod_eq_zero hm
  · simp [StrategyAdapter.validate_and_build_order, hbuy, hm]

/-- Claim C6 counterexample: a buy signal for 0 shares — 0 is a multiple of
100 but not a positive one — raises nothing and an order for 0 shares is
returned (its T+1 lock is even recorded), refuting "raises exactly when the
amount is not a positive multiple of 100". -/
theorem c6_counterexample :
    StrategyAdapter.process_bar buyZeroStrategy 1
        { stratState := (), t1_locks := [], current_date := none } barJan1 =
      .ok (.order { action := "buy", symbol := "SH600000", amount := 0, price := 10,
                    strategy_id := 1, date := some "2024-01-01" },
           { stratState := (),
             t1_locks := [("SH600000", { amount := 0, lock_date := some "2024-01-01" })],
             current_date := some "2024-01-01" }) := rfl

/-- Claim C6 witness: a buy for 150 shares raises the `ValueError`, buys for
100 and 200 succeed. -/
theorem c6_witness :
    ((∃ m, StrategyAdapter.process_bar (buyAmountStrategy 150) 1
        { stratState := (), t1_locks := [], current_date := none } barJan1 =
          .error (.valueError m)) ↔ (150 : Int) % 100 ≠ 0)
    ∧ ((∃ m, StrategyAdapter.process_bar (buyAmountStrategy 100) 1
        { stratState := (), t1_locks := [], current_date := none } barJan1 =
          .error (.valueError m)) ↔ (100 : Int) % 100 ≠ 0) := by
  constructor
  · exact (c6_lot_size (buyAmountStrategy 150) 1
      { stratState := (), t1_locks := [], current_date := none } barJan1
      { action := "buy", symbol := "SH600000", amount := 150 } () rfl rfl).1
  · exact (c6_lot_size (buyAmountStrategy 100) 1
      { stratState := (), t1_locks := [], current_date := none } barJan1
      { action := "buy", symbol := "SH600000", amount := 100 } () rfl rfl).1

/-! ### Claim C3 -/

/-- Claim C3: a strategy that buys 100 shares of a symbol on day `d1` has the
buy locked the same day: a sell attempted while the adapter is still on day
`d1` yields `None` (suppressed by the settlement lock, state unchanged apart
from the strategy's own counter), while the same sell attempted on a later
day `d2` yields a valid sell order, the lock having been purged. -/
theorem c3_settlement_lock (sym d1 d2 : String) (q1 q2 q3 : ℚ)
    (h12 : strLt d1 d2 = true) :
    (StrategyAdapter.process_bar (buyThenSell sym 100) 1
        { stratState := 0, t1_locks := [], current_date := none }
        { date := d1, close := q1 } =
      .ok (.order { action := "buy", symbol := sym, amount := 100, price := q1,
                    strategy_id := 1, date := some d1 },
           { stratState := 1, t1_locks := [(sym, { amount := 100, lock_date := some d1 })],
             current_date := some d1 }))
    ∧ (StrategyAdapter.process_bar (buyThenSell sym 100) 1
        { stratState := 1, t1_locks := [(sym, { amount := 100, lock_date := some d1 })],
          current_date := some d1 }
        { date := d1, close := q2 } =
      .ok (.noneR,
           { stratState := 2, t1_locks := [(sym, { amount := 100, lock_date := some d1 })],
             current_date := some d1 }))
    ∧ (StrategyAdapter.process_bar (buyThenSell sym 100) 1
        { stratState := 1, t1_locks := [(sym, { amount := 100, lock_date := some d1 })],
          current_date := some d1 }
        { date := d2, close := q3 } =
      .ok (.order { action := "sell", symbol := sym, amount := 100, price := q3,
                    strategy_id := 1, date := some d2 },
           { stratState := 2, t1_locks := [], current_date := some d2 })) := by
  have hne : d1 ≠ d2 := strLt_ne h12
  refine ⟨?_, ?_, ?_⟩ <;>
    simp [StrategyAdapter.process_bar, StrategyAdapter.update_current_date,
      StrategyAdapter.unlock_t1, StandardStrategy.on_bar, buyThenSell,
      StrategyAdapter.validate_and_build_order, StrategyAdapter.add_t1_lock,
      StrategyAdapter.check_t1_sellable, lookupS, updateS, oltDate, strLt_irrefl,
      h12, hne, List.find?]

/-- Claim C3 witness: the scenario at the concrete dates 2024-01-01/02 and a
close of 10. -/
theorem c3_witness :
    StrategyAdapter.process_bar (buyThenSell "SH600000" 100) 1
        { stratState := 1,
          t1_locks := [("SH600000", { amount := 100, lock_date := some "2024-01-01" })],
          current_date := some "2024-01-01" }
        { date := "2024-01-01", close := 10 } =
      .ok (.noneR,
           { stratState := 2,
             t1_locks := [("SH600000", { amount := 100, lock_date := some "2024-01-01" })],
             current_date := some "2024-01-01" })
    ∧ StrategyAdapter.process_bar (buyThenSell "SH600000" 100) 1
        { stratState := 1,
          t1_locks := [("SH600000", { amount := 100, lock_date := some "2024-01-01" })],
          current_date := some "2024-01-01" }
        { date := "2024-01-02", close := 10 } =
      .ok (.order { action := "sell", symbol := "SH600000", amount := 100, price := 10,
                    strategy_id := 1, date := some "2024-01-02" },
           { stratState := 2, t1_locks := [], current_date := some "2024-01-02" }) :=
  ⟨(c3_settlement_lock "SH600000" "2024-01-01" "2024-01-02" 10 10 10 (by decide)).2.1,
   (c3_settlement_lock "SH600000" "2024-01-01" "2024-01-02" 10 10 10 (by decide)).2.2⟩

/-! ### Claim C2 -/

/-- `_update_current_date` always leaves `current_date = some date` (purging
locks never touches the date). -/
theorem update_current_date_cd {σ : Type} (st : AdapterState σ) (d : String) :
    (StrategyAdapter.update_current_date st d).current_date = some d := by
  unfold StrategyAdapter.update_current_date StrategyAdapter.unlock_t1
  cases st.current_date with
  | none => rfl
  | some e => by_cases h : e ≠ d <;> simp [h]

/-- `add_t1_lock` creates or increments the lock entry for the order's symbol
(an existing lock keeps its original `lock_date`). -/
theorem lookupS_add_t1_lock {σ : Type} (st : AdapterState σ) (o : Order) :
    lookupS (StrategyAdapter.add_t1_lock st o).t1_locks o.symbol =
      some (match lookupS st.t1_locks o.symbol with
            | some li => { amount := li.amount + o.amount, lock_date := li.lock_date }
            | none => { amount := o.amount, lock_date := o.date }) := by
  unfold StrategyAdapter.add_t1_lock
  cases h : lookupS st.t1_locks o.symbol <;> simp [h, lookupS_updateS_self]

/-- Claim C2 (amended): the settlement lock is created or incremented as soon
as a buy signal passes order validation inside `process_bar` — before and
independently of the engine's admission decision (`process_bar` never sees
the ledger), so a buy later rejected by the ledger (e.g. for insufficient
cash) still leaves its lock in place. -/
theorem c2_lock_at_validation {σ : Type} (strat : Strategy σ) (sid : Int)
    (st : AdapterState σ) (bar : Bar) (sg : Signal) (s' : σ)
    (hs : strat (StrategyAdapter.update_current_date st bar.date).stratState bar =
          .ok (.sig sg, s'))
    (hbuy : sg.action = "buy") (hlot : sg.amount % 100 = 0) :
    ∃ st2 : AdapterState σ,
      StrategyAdapter.process_bar strat sid st bar =
        .ok (.order { action := "buy", symbol := sg.symbol, amount := sg.amount,
                      price := sg.price.getD bar.close, strategy_id := sid,
                      date := some bar.date }, st2)
      ∧ lookupS st2.t1_locks sg.symbol =
          some (match lookupS (StrategyAdapter.update_current_date st bar.date).t1_locks
                    sg.symbol with
                | some li => { amount := li.amount + sg.amount, lock_date := li.lock_date }
                | none => { amount := sg.amount, lock_date := some bar.date }) := by
  have hw : StandardStrategy.on_bar strat
      (StrategyAdapter.update_current_date st bar.date).stratState bar = .ok (.sig sg, s') := by
    unfold StandardStrategy.on_bar; rw [hs]
  have hcd := update_current_date_cd st bar.date
  unfold StrategyAdapter.process_bar
  simp only [hw]
  simp [StrategyAdapter.validate_and_build_order, hbuy, hlot, hcd]
  exact lookupS_add_t1_lock _ _

/-- Claim C2 witness: the lock-at-validation theorem instantiated at a fresh
adapter and a concrete buy of 100 shares of "X". -/
theorem c2_witness :
    ∃ st2 : AdapterState Nat,
      StrategyAdapter.process_bar (buyThenSell "X" 100) 1
          { stratState := 0, t1_locks := [], current_date := none } barJan1 =
        .ok (.order { action := "buy", symbol := "X", amount := 100, price := 10,
                      strategy_id := 1, date := some "2024-01-01" }, st2)
      ∧ lookupS st2.t1_locks "X" =
          some { amount := 100, lock_date := some "2024-01-01" } := by
  have h := c2_lock_at_validation (buyThenSell "X" 100) 1
    { stratState := 0, t1_locks := [], current_date := none } barJan1
    { action := "buy", symbol := "X", amount := 100 } 1 rfl rfl (by decide)
  simpa [barJan1, lookupS, List.find?] using h

/-- Claim C2 counterexample: with 1 unit of cash, the strategy's buy of 100
shares at price 10 on 2024-01-01 is rejected by the ledger — `trades` stays
empty — yet the settlement lock for "X" is recorded in the adapter, and a
sell attempted the same day is suppressed (`process_bar` returns `None`).
This refutes "a lock is created only when the buy is executed against the
ledger". -/
theorem c2_counterexample :
    BacktestEngine.runStates cfgTinyCash (buyThenSell "X" 100) 0 [barJan1] "X" =
      .ok { adapter := adapterAfterBuy,
            engine := { cash := 1, positions := [], trades := [],
                        portfolio_values := [1, 1] } }
    ∧ StrategyAdapter.process_bar (buyThenSell "X" 100) 1 adapterAfterBuy barJan1 =
      .ok (.noneR, { adapterAfterBuy with stratState := 2 }) := by
  have hbs : ¬("buy" : String) = "sell" := by decide
  constructor
  · norm_num [BacktestEngine.runStates, BacktestEngine.runBars, BacktestEngine.reset,
      BacktestEngine.is_suspended, BacktestEngine.execute_trade,
      BacktestEngine.apply_slippage, BacktestEngine.calculate_commission,
      BacktestEngine.validate_buy_amount, BacktestEngine.calculate_portfolio_value,
      StrategyAdapter.process_bar, StrategyAdapter.update_current_date,
      StandardStrategy.on_bar, buyThenSell, StrategyAdapter.validate_and_build_order,
      StrategyAdapter.add_t1_lock, StrategyAdapter.check_t1_sellable,
      lookupS, updateS, List.find?, cfgTinyCash, barJan1, adapterAfterBuy]
    norm_num [oltDate, strLt_irrefl, hbs]
  · simp [StrategyAdapter.process_bar, StrategyAdapter.update_current_date,
      StandardStrategy.on_bar, buyThenSell, StrategyAdapter.validate_and_build_order,
      StrategyAdapter.check_t1_sellable, lookupS, oltDate, strLt_irrefl,
      List.find?, barJan1, adapterAfterBuy]

/-! ### Claim C1 -/

/-- Claim C1 (amended): an exception raised by the sandboxed strategy's
`on_bar` is re-raised by the wrapper as `ExecutionError` and is caught
NOWHERE in `process_bar` or the engine's bar loop: the whole run aborts at
the failing bar and the remaining bars are never processed — it is not
converted into a failed-bar outcome that lets the run continue. -/
theorem c1_strategy_error_aborts_run {σ : Type} (cfg : EngineConfig) (strat : Strategy σ)
    (symbol : String) (bar : Bar) (rest : List Bar) (rs : RunState σ) (m : String)
    (hns : ¬(cfg.enable_china_rules = true ∧ BacktestEngine.is_suspended bar = true))
    (herr : strat (StrategyAdapter.update_current_date rs.adapter bar.date).stratState bar =
            .error m) :
    BacktestEngine.runBars cfg strat symbol (bar :: rest) rs =
      .error (.executionError ("策略on_bar执行失败: " ++ m)) := by
  have hw : StandardStrategy.on_bar strat
      (StrategyAdapter.update_current_date rs.adapter bar.date).stratState bar =
      .error (.executionError ("策略on_bar执行失败: " ++ m)) := by
    unfold StandardStrategy.on_bar; rw [herr]
  unfold BacktestEngine.runBars
  rw [if_neg hns]
  unfold StrategyAdapter.process_bar
  simp only [hw]

/-- Claim C1 counterexample: a strategy that raises on its very first bar
makes the whole two-bar run return the `ExecutionError` — the second bar is
never processed and no failed-bar outcome is produced. -/
theorem c1_counterexample :
    BacktestEngine.runStates cfgTinyCash raisingStrategy () [barJan1, barJan1] "X" =
      .error (.executionError "策略on_bar执行失败: boom") := rfl

/-- Claim C1 witness: the abort theorem instantiated at a concrete config,
bar list and failing strategy. -/
theorem c1_witness :
    BacktestEngine.runBars cfgTinyCash raisingStrategy "X" [barJan1, barJan1]
      { adapter := { stratState := (), t1_locks := [], current_date := none },
        engine := BacktestEngine.reset cfgTinyCash } =
      .error (.executionError ("策略on_bar执行失败: " ++ "boom")) :=
  c1_strategy_error_aborts_run cfgTinyCash raisingStrategy "X" barJan1 [barJan1]
    { adapter := { stratState := (), t1_locks := [], current_date := none },
      engine := BacktestEngine.reset cfgTinyCash } "boom"
    (by decide) rfl

/-! ### Claim C7 -/

/-- Claim C7: for an executed buy of `n` shares at (slippage-adjusted)
execution price `p_b` followed by an executed sell of the same `n` shares at
execution price `p_s`, the ledger conserves cash exactly:
`cash_after = cash_before + (p_s − p_b)·n − buy_commission − sell_commission
− stamp_duty`, with `commission = max(notional × commission_rate,
min_commission)` on each side and stamp duty on the sell only. -/
theorem c7_ledger_conservation (cfg : EngineConfig) (st0 : EngineState)
    (n : Int) (bar_b bar_s : Bar) (symbol : String)
    (p_b p_s comm_b comm_s stamp : ℚ)
    (hpb : p_b = if cfg.enable_china_rules then
      bar_b.close * (1 + cfg.slippage_rate) else bar_b.close)
    (hps : p_s = if cfg.enable_china_rules then
      bar_s.close * (1 - cfg.slippage_rate) else bar_s.close)
    (hcb : comm_b = max (p_b * (n : ℚ) * cfg.commission_rate) cfg.min_commission)
    (hcs : comm_s = max (p_s * (n : ℚ) * cfg.commission_rate) cfg.min_commission)
    (hst : stamp = if cfg.enable_china_rules then p_s * (n : ℚ) * cfg.stamp_tax_rate else 0)
    (hlot : cfg.enable_china_rules = true → n % 100 = 0)
    (hcash : p_b * (n : ℚ) + comm_b ≤ st0.cash)
    (hpos : 0 ≤ (lookupS st0.positions symbol).getD 0) :
    (BacktestEngine.execute_trade cfg
        (BacktestEngine.execute_trade cfg st0 "buy" n bar_b symbol) "sell" n bar_s symbol).cash
      = st0.cash + (p_s - p_b) * (n : ℚ) - comm_b - comm_s - stamp := by
  have hbuyneq : ¬("sell" : String) = "buy" := by decide
  subst hpb hps hcb hcs hst
  by_cases hc : cfg.enable_china_rules = true
  · have hv : BacktestEngine.validate_buy_amount n = true := by
      unfold BacktestEngine.validate_buy_amount
      simp [hlot hc]
    rw [if_pos hc] at hcash ⊢
    unfold BacktestEngine.execute_trade BacktestEngine.apply_slippage
      BacktestEngine.calculate_commission BacktestEngine.calculate_stamp_tax
    have hnl : ¬((lookupS st0.positions symbol).getD 0 + n < n) := by omega
    simp only [hc, hv, if_true, if_false, eq_self_iff_true, decide_True, decide_False,
      Bool.true_and, Bool.and_true, not_true, false_and, and_false, true_and,
      Bool.true_eq_false, iff_false, hbuyneq,
      if_neg hbuyneq, if_neg (not_lt.mpr hcash), lookupS_updateS_self, if_neg hnl]
    simp only [Bool.false_eq_true, if_false]
    ring
  · simp only [if_neg hc] at hcash ⊢
    have hnl : ¬((lookupS st0.positions symbol).getD 0 + n < n) := by omega
    unfold BacktestEngine.execute_trade BacktestEngine.apply_slippage
      BacktestEngine.calculate_commission BacktestEngine.calculate_stamp_tax
    simp only [hc, if_true, if_false, eq_self_iff_true, decide_True, decide_False,
      Bool.true_and, Bool.and_true, not_true, false_and, and_false, true_and,
      Bool.true_eq_false, Bool.false_eq_true, iff_false, hbuyneq,
      if_neg hbuyneq, if_neg (not_lt.mpr hcash), lookupS_updateS_self, if_neg hnl]
    ring

/-- Claim C7 witness: the conservation identity at the default cost model,
100 shares bought at close 10 and sold at close 11 from 100000 cash. -/
theorem c7_witness :
    (BacktestEngine.execute_trade {} (BacktestEngine.execute_trade {}
        { cash := 100000 } "buy" 100 { date := "2024-01-01", close := 10 } "SH600000")
        "sell" 100 { date := "2024-01-02", close := 11 } "SH600000").cash
      = 100000 + (11 * (1 - 1/1000) - 10 * (1 + 1/1000)) * ((100 : Int) : ℚ)
        - max (10 * (1 + 1/1000) * ((100 : Int) : ℚ) * (3/10000)) 5
        - max (11 * (1 - 1/1000) * ((100 : Int) : ℚ) * (3/10000)) 5
        - 11 * (1 - 1/1000) * ((100 : Int) : ℚ) * (1/1000) :=
  c7_ledger_conservation {} { cash := 100000 } 100
    { date := "2024-01-01", close := 10 } { date := "2024-01-02", close := 11 } "SH600000"
    (10 * (1 + 1/1000)) (11 * (1 - 1/1000))
    (max (10 * (1 + 1/1000) * ((100 : Int) : ℚ) * (3/10000)) 5)
    (max (11 * (1 - 1/1000) * ((100 : Int) : ℚ) * (3/10000)) 5)
    (11 * (1 - 1/1000) * ((100 : Int) : ℚ) * (1/1000))
    (by norm_num) (by norm_num) (by norm_num) (by norm_num) (by norm_num)
    (fun _ => by decide)
    (by rw [max_def]; norm_num)
    (by simp [lookupS])

/-! ### Claim C8 -/

/-- The branch-node count splits into the five per-kind counts (the kinds are
mutually exclusive and exhaust `isBranch`). -/
theorem branch_filter_split (l : List PyAst) :
    (l.filter PyAst.isBranch).length =
      (l.filter PyAst.isIf).length + (l.filter PyAst.isFor).length +
      (l.filter PyAst.isWhile).length + (l.filter PyAst.isBoolOp).length +
      (l.filter PyAst.isExcept).length := by
  induction l with
  | nil => rfl
  | cons a l ih =>
    cases a <;> simp [List.filter, PyAst.isBranch, PyAst.isIf, PyAst.isFor,
      PyAst.isWhile, PyAst.isBoolOp, PyAst.isExcept, ih] <;> omega

/-- Claim C8: for every syntactically valid source passing the import, call
and entry-point checks, the complexity score is 1 plus one per conditional,
loop, logical-and/or node and exception handler in the parse tree, and
`check` reports a complexity violation exactly when that score exceeds the
configured ceiling, whose default is 20. -/
theorem c8_complexity (t : PyAst) (maxC : Nat)
    (hi : checkImports t = []) (hc : checkCalls t = []) (hm : checkRequiredMethods t = []) :
    (calculate_complexity (some t) =
      1 + (countIf t + countFor t + countWhile t + countBoolOp t + countExcept t))
    ∧ ((CodeSecurityChecker.check maxC (some t) =
        .complexityTooHigh (calculate_complexity (some t))) ↔
       calculate_complexity (some t) > maxC)
    ∧ defaultMaxComplexity = 20 := by
  refine ⟨?_, ?_, rfl⟩
  · unfold calculate_complexity countIf countFor countWhile countBoolOp countExcept
    simp only []
    rw [branch_filter_split]
  · unfold CodeSecurityChecker.check
    simp only [hi, hc, hm, ne_eq, not_true_eq_false, if_false,
      not_false_eq_true, ite_false, ite_true]
    by_cases hgt : calculate_complexity (some t) > maxC
    · simp [hgt]
    · simp [hgt]

/-- Claim C8 witness: the decomposition and rejection condition at a concrete
tree (one class with `on_bar`, one `if`, one `and`, one `for`: score 4) and
the default ceiling 20. -/
theorem c8_witness :
    calculate_complexity (some treeSmall) =
      1 + (countIf treeSmall + countFor treeSmall + countWhile treeSmall +
           countBoolOp treeSmall + countExcept treeSmall)
    ∧ ((CodeSecurityChecker.check 20 (some treeSmall) =
        .complexityTooHigh (calculate_complexity (some treeSmall))) ↔
       calculate_complexity (some treeSmall) > 20) :=
  ⟨(c8_complexity treeSmall 20 rfl rfl rfl).1,
   (c8_complexity treeSmall 20 rfl rfl rfl).2.1⟩
